import Mathlib

/-!
Verification of the Misinformation crisis-detection pipeline.

Shallow embedding of the core crisis-detection and correlation pipeline:

* `ScoutAgent.analyze_volatility`, `ScoutAgent.predict_impact`,
  `ScoutAgent.process_task` from `backend/agents/scout_agent.py`;
* `TrendingAgent.analyze_panic`, `TrendingAgent.filter_by_time`,
  `TrendingAgent._hunt_mode` from `Old/trending_agent.py`;
* `CoordinatorAgent.correlate_events`, `CoordinatorAgent.process_ticker`
  from `backend/agents/coordinator_agent.py`.

Conventions of the embedding:

* Timestamps are rational numbers measured in minutes (the Python code
  stores ISO datetimes and converts differences to minutes via
  `total_seconds() / 60`).
* Python floats are modelled as exact rationals.
* Python `int(x)` (truncation toward zero) is `pyInt`; Python's `round`
  (round half to even) is `pyRound`, and `round(x, k)` is `round2`/`round4`.
* External collaborators (market-data fetch, news search, the LLM panic
  scorer and response generator, and the square root used by `np.std`,
  which is irrational over ℚ) are passed in as function parameters.
* Fallible Python code (try/except, `None` returns) is modelled with
  `Option`/`Except`.
-/

/-- Python `int(x)`: truncation toward zero. -/
def pyInt (q : ℚ) : ℤ :=
  if 0 ≤ q then ⌊q⌋ else -⌊-q⌋

/-- Python `round(x)`: round half to even (banker's rounding). -/
def pyRound (q : ℚ) : ℤ :=
  let f := ⌊q⌋
  let frac := q - f
  if frac > 1/2 then f + 1
  else if frac < 1/2 then f
  else if f % 2 = 0 then f else f + 1

/-- Python `round(x, 2)`. -/
def round2 (q : ℚ) : ℚ := (pyRound (q * 100) : ℚ) / 100

/-- Python `round(x, 4)`. -/
def round4 (q : ℚ) : ℚ := (pyRound (q * 10000) : ℚ) / 10000

/-- A news article as handled by the pipeline: dictionaries with `title`,
`link` and `published` keys.  `published` is `none` when the timestamp is
missing or unparsable (such articles are skipped by the code). -/
structure Article where
  title : String
  link : String
  published : Option ℚ
deriving DecidableEq, Repr

/-! ## CorrelationEngine (`CoordinatorAgent.correlate_events`) -/

/-- Result dictionary of `correlate_events`.  `latency_minutes` carries the
code's `round(latency, 2)`; `article_time` is the selected article's
timestamp. -/
structure CorrelationResult where
  smoking_gun_found : Bool
  smoking_gun : Option Article
  article_time : Option ℚ
  latency_minutes : Option ℚ
  correlation_confidence : ℤ
  verdict : String
  total_candidates : ℕ
deriving DecidableEq, Repr

/-- The candidate pass of `correlate_events`: for each article with a
parseable timestamp, the latency `crash_time - article_time` (in minutes) is
computed, and the article is kept iff `0 < latency ≤ 30`. -/
def candidatesOf (crash : ℚ) (news : List Article) : List (Article × ℚ) :=
  news.filterMap fun a =>
    match a.published with
    | none => none
    | some t =>
      let latency := crash - t
      if 0 < latency ∧ latency ≤ 30 then some (a, latency) else none

/-- Model of `candidates.sort(key=latency); candidates[0]`: Python's sort is stable,
so the selected candidate is the first one attaining the minimal latency. -/
def pickMin : List (Article × ℚ) → Option (Article × ℚ)
  | [] => none
  | c :: cs => some (cs.foldl (fun best x => if x.2 < best.2 then x else best) c)

/-- Model of `temporal_score = max(0, 100 - (latency * 3))`. -/
def temporalScore (latency : ℚ) : ℚ := max 0 (100 - latency * 3)

/-- Model of `correlation_confidence = int((temporal_score * 0.6) + (panic_score * 0.4))`. -/
def confidenceOf (latency panic : ℚ) : ℤ :=
  pyInt (temporalScore latency * (6/10) + panic * (4/10))

/-- Model of `CoordinatorAgent.correlate_events`: `crash` is the parsed crash
timestamp and `panic` is `stock_data['panic_score']` (the caller supplies
it; `process_ticker` copies the hunt's panic score there). -/
def correlate_events (crash panic : ℚ) (news : List Article) : CorrelationResult :=
  if news = [] then
    ⟨false, none, none, none, 0, "NO_NEWS_DATA", 0⟩
  else
    let cands := candidatesOf crash news
    match pickMin cands with
    | none => ⟨false, none, none, none, 0, "NO_TEMPORAL_MATCH", 0⟩
    | some (a, latency) =>
      let conf := confidenceOf latency panic
      let verdict := if conf > 80 then "HIGH_CONFIDENCE" else "MEDIUM_CONFIDENCE"
      ⟨true, some a, some (crash - latency), some (round2 latency), conf, verdict,
        cands.length⟩

/-- Modelled from the spec: the confidence formula as the spec words it,
`round(0.6 * temporal_score + 0.4 * panic_score)`, to be compared with the
code's `confidenceOf`. -/
def specConfidence (latency panic : ℚ) : ℤ :=
  pyRound ((6/10) * temporalScore latency + (4/10) * panic)

/-! ## AnomalyDetector (`ScoutAgent`) -/

/-- Mean of a list of prices (`np.mean`). -/
def listMean (l : List ℚ) : ℚ := l.sum / l.length

/-- Population variance (`np.std` squared: `np.std` defaults to `ddof=0`). -/
def popVariance (l : List ℚ) : ℚ :=
  (l.map fun p => (p - listMean l) ^ 2).sum / l.length

/-- Result dictionary of `ScoutAgent.analyze_volatility`. -/
structure VolStats where
  mean : ℚ
  std_dev : ℚ
  z_score : ℚ
  volatility_status : String
  latest_price : ℚ
deriving DecidableEq

/-- Model of `ScoutAgent.analyze_volatility`.  `std` is `np.std(prices)`: the square
root of `popVariance prices`, which is irrational over ℚ, so it is passed in
and characterized by `0 ≤ std ∧ std ^ 2 = popVariance prices` in theorems.
The `none` branch is the Python `except` path (indexing an empty array). -/
def analyze_volatility (std : ℚ) (prices : List ℚ) : VolStats :=
  match prices.getLast? with
  | none => ⟨0, 0, 0, "ERROR", 0⟩
  | some latest =>
    let mean := listMean prices
    let z := if std > 0 then (latest - mean) / std else 0
    let status :=
      if z < -2 then "SIGMA_EVENT"
      else if z < -1 then "HIGH_VOLATILITY"
      else if z > 2 then "RALLY"
      else "STABLE"
    ⟨round2 mean, round2 std, round2 z, status, round2 latest⟩

/-- Python `prices[-10:]`. -/
def takeLast (n : ℕ) (l : List ℚ) : List ℚ := l.drop (l.length - n)

/-- The (index, price) points `np.polyfit` is run on: `x = arange(len(recent))`. -/
def idxPoints : ℚ → List ℚ → List (ℚ × ℚ)
  | _, [] => []
  | k, y :: ys => (k, y) :: idxPoints (k + 1) ys

/-- Sum of the x coordinates. -/
def sumX (pts : List (ℚ × ℚ)) : ℚ := (pts.map fun p => p.1).sum

/-- Sum of the y coordinates. -/
def sumY (pts : List (ℚ × ℚ)) : ℚ := (pts.map fun p => p.2).sum

/-- Sum of the squared x coordinates. -/
def sumXX (pts : List (ℚ × ℚ)) : ℚ := (pts.map fun p => p.1 * p.1).sum

/-- Sum of the products x·y. -/
def sumXY (pts : List (ℚ × ℚ)) : ℚ := (pts.map fun p => p.1 * p.2).sum

/-- Denominator of the least-squares slope (`n·Σx² − (Σx)²`). -/
def olsDenom (pts : List (ℚ × ℚ)) : ℚ :=
  (pts.length : ℚ) * sumXX pts - sumX pts ^ 2

/-- Degree-1 `np.polyfit` slope: the ordinary least-squares slope. -/
def olsSlope (pts : List (ℚ × ℚ)) : ℚ :=
  ((pts.length : ℚ) * sumXY pts - sumX pts * sumY pts) / olsDenom pts

/-- Degree-1 `np.polyfit` intercept: the ordinary least-squares intercept. -/
def olsIntercept (pts : List (ℚ × ℚ)) : ℚ :=
  (sumY pts - olsSlope pts * sumX pts) / (pts.length : ℚ)

/-- Sum of squared residuals of the line `y = m·x + b` over the points:
what "ordinary least squares" minimizes. -/
def sse (pts : List (ℚ × ℚ)) (m b : ℚ) : ℚ :=
  (pts.map fun p => (p.2 - (m * p.1 + b)) ^ 2).sum

/-- Result dictionary of `ScoutAgent.predict_impact` (the `confidence`
key is the constant `"MEDIUM"` and is omitted). -/
structure PredictionOut where
  projected_price_1hr : ℚ
  projected_loss : ℚ
  trend : String
  slope : ℚ
deriving DecidableEq

/-- Model of `ScoutAgent.predict_impact`: fit the trailing 10 points (or all, if
fewer), project to `future_time_index = len(recent_prices) + 12`, and report
the percentage change vs. the latest price.  The `none` branch is the Python
`except` path (empty input). -/
def predict_impact (prices : List ℚ) : PredictionOut :=
  let recent := takeLast 10 prices
  match recent.getLast? with
  | none => ⟨0, 0, "UNKNOWN", 0⟩
  | some current =>
    let pts := idxPoints 0 recent
    let slope := olsSlope pts
    let intercept := olsIntercept pts
    let futureIdx : ℚ := (recent.length : ℚ) + 12
    let projected := slope * futureIdx + intercept
    let change := (projected - current) / current * 100
    ⟨round2 projected, round2 change,
      if slope < -(1/10) then "DOWNWARD"
      else if slope > 1/10 then "UPWARD"
      else "SIDEWAYS",
      round4 slope⟩

/-- Modelled from the spec: "extrapolate 12 steps ahead" of the last point,
i.e. the fitted line evaluated at index `(n − 1) + 12`, to be compared with
the code's `predict_impact`. -/
def specProjectedPrice (prices : List ℚ) : ℚ :=
  let recent := takeLast 10 prices
  let pts := idxPoints 0 recent
  olsSlope pts * ((recent.length : ℚ) - 1 + 12) + olsIntercept pts

/-- The `stats` sub-dictionary assembled by `ScoutAgent.process_task`. -/
structure ScoutStats where
  z_score : ℚ
  volatility_status : String
  mean : ℚ
  std_dev : ℚ
deriving DecidableEq

/-- The `prediction` sub-dictionary assembled by `ScoutAgent.process_task`. -/
structure ScoutPrediction where
  projected_price_1hr : ℚ
  projected_loss : ℚ
  trend : String
deriving DecidableEq

/-- The completed-result dictionary of `ScoutAgent.process_task`
(`demo_mode` is absent, hence false, outside the demo branch). -/
structure ScoutData where
  ticker : String
  current_price : ℚ
  timestamp : ℚ
  stats : ScoutStats
  prediction : ScoutPrediction
  data_points_analyzed : ℕ
  demo_mode : Bool
deriving DecidableEq

/-- Result type of `ScoutAgent.process_task`: either a failure dictionary
(`status = "failed"`) or a completed one. -/
inductive ScoutResult where
  | failed (ticker error : String)
  | ok (d : ScoutData)
deriving DecidableEq

/-- The `status` key of a Scout result. -/
def ScoutResult.status : ScoutResult → String
  | .failed _ _ => "failed"
  | .ok _ => "completed"

/-- The reported `stats['volatility_status']` of a Scout result, when present. -/
def ScoutResult.volatility : ScoutResult → Option String
  | .failed _ _ => none
  | .ok d => some d.stats.volatility_status

/-- The fabricated result the `DEMO.NS` branch of `ScoutAgent.process_task`
returns (`timestamp` is `datetime.now()`, passed in as `now`). -/
def demoScoutResult (now : ℚ) : ScoutResult :=
  .ok ⟨"DEMO.NS", 1250, now,
    ⟨-(14/5), "SIGMA_EVENT", 1300, 1786/100⟩,
    ⟨1200, -4, "DOWNWARD"⟩, 100, true⟩

/-- Model of `ScoutAgent.process_task`.  `fetch` models the
`fetch_stock_data`/`extract_prices` collaborator chain (`none` = fetch
failed, `some []` = no usable prices); `stdFn` models `np.std`; `now` is
`datetime.now()`. -/
def scout_process_task (fetch : String → Option (List ℚ)) (stdFn : List ℚ → ℚ)
    (now : ℚ) (ticker : String) : ScoutResult :=
  if ticker = "DEMO.NS" then demoScoutResult now
  else
    match fetch ticker with
    | none => .failed ticker "Failed to fetch stock data"
    | some [] => .failed ticker "Failed to extract price data"
    | some (p :: ps) =>
      let prices := p :: ps
      let vol := analyze_volatility (stdFn prices) prices
      let pred := predict_impact prices
      .ok ⟨ticker, vol.latest_price, now,
        ⟨vol.z_score, vol.volatility_status, vol.mean, vol.std_dev⟩,
        ⟨pred.projected_price_1hr, pred.projected_loss, pred.trend⟩,
        prices.length, false⟩

/-! ## ReactiveHunter (`Old/trending_agent.py`, hunt mode) -/

/-- The JSON object a successful `ScorePanic` LLM call parses into. -/
structure PanicLLM where
  panic_score : ℚ
  highest_risk_headline : Option String
  risk_reason : Option String
deriving DecidableEq

/-- Return dictionary of `TrendingAgent.analyze_panic` (the failure branch
adds the `analysis` key carrying the error). -/
structure PanicResult where
  panic_score : ℚ
  highest_risk_headline : Option String
  risk_reason : Option String
  analysis : Option String
deriving DecidableEq

/-- Model of `TrendingAgent.analyze_panic`.  `scorer` is the Gemini call plus JSON
parse; `.error e` covers both a raised exception and unparsable output
(`json.loads` raising), which the code catches and converts into the
default dictionary with the diagnostic `analysis` field. -/
def analyze_panic (scorer : List String → Except String PanicLLM)
    (headlines : List String) : PanicResult :=
  if headlines = [] then ⟨0, none, none, some "No headlines to analyze"⟩
  else
    match scorer headlines with
    | .ok r => ⟨r.panic_score, r.highest_risk_headline, r.risk_reason, none⟩
    | .error e => ⟨0, none, none, some ("Analysis failed: " ++ e)⟩

/-- Model of `TrendingAgent.filter_by_time`: with a parseable crash time, keep
articles with a parseable publish time `pt` satisfying
`crash − minutes ≤ pt ≤ crash`; with no crash time (or an unparsable one,
the outer `except`), return the items unfiltered. -/
def filter_by_time (crash_time : Option ℚ) (minutes : ℚ)
    (news_items : List Article) : List Article :=
  match crash_time with
  | none => news_items
  | some ct =>
    news_items.filter fun n =>
      match n.published with
      | none => false
      | some pt => decide (ct - minutes ≤ pt ∧ pt ≤ ct)

/-- The Python de-duplication `{a['title']: a for a in items}.values()`:
per title, keep the last article with that title, at the position of the
title's first occurrence. -/
def dedupByTitle (items : List Article) : List Article :=
  items.foldl
    (fun acc a =>
      if acc.any fun b => b.title == a.title then
        acc.map fun b => if b.title = a.title then a else b
      else acc ++ [a])
    []

/-- Model of `company_name = ticker.replace('.NS', '').replace('.BO', '').replace('_', ' ')`. -/
def companyName (ticker : String) : String :=
  ((ticker.replace ".NS" "").replace ".BO" "").replace "_" " "

/-- The fixed panic-keyword set of `_hunt_mode`. -/
def panicKeywords : List String :=
  ["fraud", "arrest", "raid", "bankruptcy", "scandal", "crisis"]

/-- The hunt task dictionary built by the coordinator. -/
structure HuntTask where
  target_ticker : String
  crash_time : Option ℚ
  search_window_minutes : ℚ
  urgency_level : String
deriving DecidableEq

/-- The full-result dictionary of `_hunt_mode` (nonempty filtered set). -/
structure HuntData where
  ticker : String
  crash_time : Option ℚ
  smoking_gun_found : Bool
  articles_analyzed : ℕ
  panic_score : ℚ
  smoking_gun_headline : Option String
  risk_reason : Option String
  articles : List Article
  verdict : String
deriving DecidableEq

/-- Output shapes of `TrendingAgent.process_task`: a failure dictionary, the
empty-window dictionary (`NO_MISINFORMATION_DETECTED`, which has no
`panic_score`/`articles` keys), or the full hunt dictionary. -/
inductive HuntResult where
  | failed (error : String)
  | noMisinfo (ticker : String)
  | analyzed (d : HuntData)
deriving DecidableEq

/-- The `status` key of a hunt result. -/
def HuntResult.status : HuntResult → String
  | .failed _ => "failed"
  | _ => "completed"

/-- Model of `result.get('panic_score')`: present only in the full dictionary. -/
def HuntResult.panic_score : HuntResult → Option ℚ
  | .analyzed d => some d.panic_score
  | _ => none

/-- Model of `result.get('articles', [])`. -/
def HuntResult.articles : HuntResult → List Article
  | .analyzed d => d.articles
  | _ => []

/-- Model of `result.get('smoking_gun_found')`. -/
def HuntResult.smoking_gun_found : HuntResult → Bool
  | .analyzed d => d.smoking_gun_found
  | _ => false

/-- The merge/de-duplicate/filter phase of `_hunt_mode`: per-keyword query
results are concatenated, de-duplicated by exact title, and filtered by
`filter_by_time` against the crash time.  `newsSource` models
`fetch_targeted_news(query, window_mins)`. -/
def huntFiltered (newsSource : String → ℚ → List Article) (task : HuntTask) :
    List Article :=
  let company := companyName task.target_ticker
  let all := (panicKeywords.map fun k =>
    newsSource (company ++ " " ++ k) task.search_window_minutes).flatten
  filter_by_time task.crash_time task.search_window_minutes (dedupByTitle all)

/-- Model of `TrendingAgent._hunt_mode`. -/
def huntMode (newsSource : String → ℚ → List Article)
    (scorer : List String → Except String PanicLLM) (task : HuntTask) :
    HuntResult :=
  let filtered := huntFiltered newsSource task
  if filtered = [] then .noMisinfo task.target_ticker
  else
    let pa := analyze_panic scorer (filtered.map fun a => a.title)
    let gun : Bool := decide (pa.panic_score > 60)
    .analyzed ⟨task.target_ticker, task.crash_time, gun, filtered.length,
      pa.panic_score, pa.highest_risk_headline, pa.risk_reason,
      filtered.take 5,
      if gun then "MISINFORMATION_LIKELY" else "ORGANIC_VOLATILITY"⟩

/-! ## CrisisPipeline (`CoordinatorAgent.process_ticker`) -/

/-- The three drafted crisis responses (LLM collaborator output). -/
structure ResponseDrafts where
  cease_desist : String
  official_denial : String
  internal_alert : String
deriving DecidableEq

/-- The `threat_data` dictionary handed to `generate_response`. -/
structure ThreatData where
  ticker : String
  smoking_gun_headline : Option String
  projected_loss : ℚ
  panic_score : Option ℚ
deriving DecidableEq

/-- The archived attack package (wall-clock-formatted fields `event_id`
and `archived_at` are omitted). -/
structure AttackPackage where
  ticker : String
  crash_timestamp : ℚ
  current_price : ℚ
  z_score : ℚ
  projected_loss : ℚ
  smoking_gun_headline : Option String
  smoking_gun_link : Option String
  article_timestamp : Option ℚ
  latency_minutes : Option ℚ
  panic_score : Option ℚ
  correlation_confidence : ℤ
  verdict : String
  responses : ResponseDrafts
deriving DecidableEq

/-- The result dictionaries `process_ticker` can return, tagged by their
`status` value. -/
inductive ScanResult where
  | scout_failed (r : ScoutResult)
  | normal (volatility_status message : String)
  | trending_failed (r : HuntResult)
  | organic_crash (c : CorrelationResult)
  | low_confidence (c : CorrelationResult)
  | attack_verified (pkg : AttackPackage)
deriving DecidableEq

/-- The `status` key of a scan result. -/
def ScanResult.statusStr : ScanResult → String
  | .scout_failed _ => "scout_failed"
  | .normal _ _ => "normal"
  | .trending_failed _ => "trending_failed"
  | .organic_crash _ => "organic_crash"
  | .low_confidence _ => "low_confidence"
  | .attack_verified _ => "attack_verified"

/-- Model of `CoordinatorAgent.process_ticker`.  `force_crash_test` models the
presence of the `FORCE_CRASH_TEST` marker file (the dev override);
`scout` is the Scout collaborator's result, `trending` the Trending
collaborator, `respond` the response-generation collaborator. -/
def process_ticker (force_crash_test : Bool) (scout : ScoutResult)
    (trending : HuntTask → HuntResult) (respond : ThreatData → ResponseDrafts)
    (ticker : String) : ScanResult :=
  match scout with
  | .failed t e => .scout_failed (.failed t e)
  | .ok d0 =>
    let vstat := if force_crash_test then "SIGMA_EVENT" else d0.stats.volatility_status
    let d := if force_crash_test then
        { d0 with
          stats := { d0.stats with z_score := -(5/2) },
          current_price := 945,
          prediction := ⟨0, -5, "DOWNWARD"⟩ }
      else d0
    if vstat ≠ "SIGMA_EVENT" then .normal vstat "No action needed"
    else
      let task : HuntTask := ⟨ticker, some d.timestamp, 30, "CRITICAL"⟩
      let h := trending task
      if h.status ≠ "completed" then .trending_failed h
      else
        let panic := h.panic_score.getD 0
        let corr := correlate_events d.timestamp panic h.articles
        if corr.smoking_gun_found = false then .organic_crash corr
        else if corr.correlation_confidence < 80 then .low_confidence corr
        else
          let threat : ThreatData := ⟨ticker, corr.smoking_gun.map (fun a => a.title),
            d.prediction.projected_loss, h.panic_score⟩
          let resp := respond threat
          .attack_verified ⟨ticker, d.timestamp, d.current_price, d.stats.z_score,
            d.prediction.projected_loss, corr.smoking_gun.map (fun a => a.title),
            corr.smoking_gun.map (fun a => a.link), corr.article_time,
            corr.latency_minutes, h.panic_score, corr.correlation_confidence,
            "MISINFORMATION_CAUSED_CRASH", resp⟩

/-! ### Concrete inputs used by counterexamples and witnesses -/

/-- An article published at minute 90 (10 minutes before a crash at 100). -/
def artA : Article := ⟨"Company fraud scandal", "http://x", some 90⟩

/-- An article published at minute 80 (20 minutes before a crash at 100). -/
def artB : Article := ⟨"Company raid report", "http://y", some 80⟩

/-- An article published exactly at the lower window boundary
(minute 70 for a crash at 100 with a 30-minute window). -/
def artBoundary : Article := ⟨"T fraud probe", "http://b", some 70⟩

/-- A news source answering every query with the boundary article. -/
def nsConst : String → ℚ → List Article := fun _ _ => [artBoundary]

/-- A panic scorer that always succeeds. -/
def scorerOk : List String → Except String PanicLLM :=
  fun _ => .ok ⟨80, some "T fraud probe", some "panic words"⟩

/-- A panic scorer that always raises. -/
def scorerFail : List String → Except String PanicLLM :=
  fun _ => .error "LLM unavailable"

/-- A hunt task for ticker `T.NS` with crash time 100 and a 30-minute window. -/
def taskT : HuntTask := ⟨"T.NS", some 100, 30, "CRITICAL"⟩

/-- Scout data reporting a SIGMA_EVENT at time 100. -/
def scoutSigmaData : ScoutData :=
  ⟨"TATAMOTORS.NS", 900, 100, ⟨-(5/2), "SIGMA_EVENT", 950, 20⟩,
    ⟨890, -5, "DOWNWARD"⟩, 50, false⟩

/-- A completed Scout result reporting a SIGMA_EVENT at time 100. -/
def scoutSigma : ScoutResult := .ok scoutSigmaData

/-- Scout data reporting a STABLE market at time 50. -/
def scoutStableData : ScoutData :=
  ⟨"T.NS", 100, 50, ⟨1/10, "STABLE", 100, 1⟩,
    ⟨100, 0, "SIDEWAYS"⟩, 20, false⟩

/-- A completed Scout result reporting a STABLE market at time 50. -/
def scoutStable : ScoutResult := .ok scoutStableData

/-- A hunt result with panic score 95 whose only article is `artA`. -/
def huntA95 : HuntResult :=
  .analyzed ⟨"TATAMOTORS.NS", some 100, true, 1, 95, some artA.title,
    some "panic words", [artA], "MISINFORMATION_LIKELY"⟩

/-- A hunt result with panic score 49 whose only article is `artA`. -/
def huntA49 : HuntResult :=
  .analyzed ⟨"TATAMOTORS.NS", some 100, false, 1, 49, some artA.title,
    some "mild words", [artA], "ORGANIC_VOLATILITY"⟩

/-- A failed hunt result. -/
def huntFailedR : HuntResult := .failed "boom"

/-- A Trending collaborator returning a fixed result. -/
def trendingConst (h : HuntResult) : HuntTask → HuntResult := fun _ => h

/-- A response generator returning fixed drafts. -/
def respondFixed : ThreatData → ResponseDrafts := fun _ => ⟨"cd", "od", "ia"⟩

/-- Ten strictly increasing prices on an exact line of slope 1. -/
def prices10 : List ℚ := [100, 101, 102, 103, 104, 105, 106, 107, 108, 109]

/-- Three coincident prices. -/
def pricesFlat : List ℚ := [5, 5, 5]

section CorrelationLemmas

/-- Membership in the candidate list characterizes the window. -/
theorem mem_candidatesOf {crash : ℚ} {news : List Article} {c : Article × ℚ}
    (h : c ∈ candidatesOf crash news) :
    c.1 ∈ news ∧ c.1.published = some (crash - c.2) ∧ 0 < c.2 ∧ c.2 ≤ 30 := by
  rcases List.mem_filterMap.1 h with ⟨a, ha, hf⟩
  rcases hpub : a.published with _ | t
  · simp [hpub] at hf
  · simp only [hpub] at hf
    split at hf
    · rename_i hw
      obtain rfl : (a, crash - t) = c := Option.some_inj.1 hf
      refine ⟨ha, ?_, hw.1, hw.2⟩
      simp [hpub]
    · cases hf

/-- The foldl underlying `pickMin` returns either the seed or a list element. -/
theorem foldlMin_mem (cs : List (Article × ℚ)) (c : Article × ℚ) :
    cs.foldl (fun best x => if x.2 < best.2 then x else best) c = c ∨
    cs.foldl (fun best x => if x.2 < best.2 then x else best) c ∈ cs := by
  induction cs generalizing c with
  | nil => left; rfl
  | cons d ds ih =>
    simp only [List.foldl_cons]
    rcases ih (if d.2 < c.2 then d else c) with h | h
    · rw [h]
      by_cases hd : d.2 < c.2
      · right; simp [hd]
      · left; simp [hd]
    · right; exact List.mem_cons_of_mem _ h

/-- The foldl underlying `pickMin` is a lower bound on the seed. -/
theorem foldlMin_le_seed (cs : List (Article × ℚ)) (c : Article × ℚ) :
    (cs.foldl (fun best x => if x.2 < best.2 then x else best) c).2 ≤ c.2 := by
  induction cs generalizing c with
  | nil => exact le_refl _
  | cons d ds ih =>
    simp only [List.foldl_cons]
    by_cases hd : d.2 < c.2
    · calc (ds.foldl _ (if d.2 < c.2 then d else c)).2
          ≤ (if d.2 < c.2 then d else c).2 := ih _
        _ ≤ c.2 := by simp [hd]; exact le_of_lt hd
    · calc (ds.foldl _ (if d.2 < c.2 then d else c)).2
          ≤ (if d.2 < c.2 then d else c).2 := ih _
        _ ≤ c.2 := by simp [hd]

/-- The foldl underlying `pickMin` is a lower bound on every list element. -/
theorem foldlMin_le (cs : List (Article × ℚ)) (c : Article × ℚ) :
    ∀ x ∈ cs, (cs.foldl (fun best x => if x.2 < best.2 then x else best) c).2 ≤ x.2 := by
  induction cs generalizing c with
  | nil => intro x hx; cases hx
  | cons d ds ih =>
    intro x hx
    simp only [List.foldl_cons]
    rcases List.mem_cons.1 hx with rfl | hx
    · calc (ds.foldl _ (if x.2 < c.2 then x else c)).2
          ≤ (if x.2 < c.2 then x else c).2 := foldlMin_le_seed ds _
        _ ≤ x.2 := by by_cases hd : x.2 < c.2 <;> simp [hd]; exact le_of_not_lt hd
    · exact ih _ x hx

/-- The function `pickMin` returns a member of the list. -/
theorem pickMin_mem {cs : List (Article × ℚ)} {c : Article × ℚ}
    (h : pickMin cs = some c) : c ∈ cs := by
  cases cs with
  | nil => cases h
  | cons d ds =>
    simp only [pickMin, Option.some_inj] at h
    rcases foldlMin_mem ds d with h' | h'
    · rw [← h]; rw [h']; exact List.mem_cons_self _ _
    · rw [← h]; exact List.mem_cons_of_mem _ h'

/-- The function `pickMin` returns a latency-minimal element. -/
theorem pickMin_le {cs : List (Article × ℚ)} {c : Article × ℚ}
    (h : pickMin cs = some c) : ∀ x ∈ cs, c.2 ≤ x.2 := by
  cases cs with
  | nil => cases h
  | cons d ds =>
    simp only [pickMin, Option.some_inj] at h
    intro x hx
    rcases List.mem_cons.1 hx with rfl | hx
    · rw [← h]; exact foldlMin_le_seed ds x
    · rw [← h]; exact foldlMin_le ds d x hx

/-- When a candidate is selected, `correlate_events` returns the full
smoking-gun dictionary built from it. -/
theorem correlate_events_pick {crash panic : ℚ} {news : List Article}
    {a : Article} {L : ℚ} (h : pickMin (candidatesOf crash news) = some (a, L)) :
    correlate_events crash panic news =
      ⟨true, some a, some (crash - L), some (round2 L), confidenceOf L panic,
        if confidenceOf L panic > 80 then "HIGH_CONFIDENCE" else "MEDIUM_CONFIDENCE",
        (candidatesOf crash news).length⟩ := by
  have hne : news ≠ [] := by
    intro hnil
    rw [hnil] at h
    simp [candidatesOf, pickMin] at h
  simp only [correlate_events, if_neg hne, h]

/-- Truncation toward zero is monotone. -/
theorem pyInt_mono {q r : ℚ} (h : q ≤ r) : pyInt q ≤ pyInt r := by
  unfold pyInt
  by_cases hq : 0 ≤ q <;> by_cases hr : 0 ≤ r
  · simpa [hq, hr] using Int.floor_le_floor h
  · exact absurd (le_trans hq h) hr
  · have h1 : -⌊-q⌋ ≤ 0 := by
      simp only [neg_nonpos]
      exact Int.floor_nonneg.2 (by linarith)
    have h2 : (0 : ℤ) ≤ ⌊r⌋ := Int.floor_nonneg.2 hr
    simp only [hq, hr, if_true, if_false]
    omega
  · have : ⌊-r⌋ ≤ ⌊-q⌋ := Int.floor_le_floor (by linarith)
    simp only [hq, hr, if_false]
    omega

/-- For a nonnegative argument, Python `int` is the floor. -/
theorem pyInt_of_nonneg {q : ℚ} (h : 0 ≤ q) : pyInt q = ⌊q⌋ := by
  simp [pyInt, h]

/-- The temporal score is never negative. -/
theorem temporalScore_nonneg (L : ℚ) : 0 ≤ temporalScore L := le_max_left _ _

/-- The temporal score does not increase with latency. -/
theorem temporalScore_antitone {L1 L2 : ℚ} (h : L1 ≤ L2) :
    temporalScore L2 ≤ temporalScore L1 :=
  max_le_max (le_refl 0) (by linarith)

/-- When the result reports a smoking gun, some candidate was selected. -/
theorem correlate_found_pick {crash panic : ℚ} {news : List Article}
    (h : (correlate_events crash panic news).smoking_gun_found = true) :
    ∃ a L, pickMin (candidatesOf crash news) = some (a, L) := by
  by_cases hne : news = []
  · rw [hne] at h
    simp [correlate_events] at h
  · rcases hpick : pickMin (candidatesOf crash news) with _ | ⟨a, L⟩
    · exfalso
      simp [correlate_events, hne, hpick] at h
    · exact ⟨a, L, rfl⟩

end CorrelationLemmas

/-! ## C1, C3, C9: the correlation engine -/

/-- C1 (counterexample).  With a single article 10 minutes before the crash
and caller-supplied panic score 49, the code returns confidence
`int(0.6·90... ) = int(61.6) = 61`, while the spec's formula
`round(0.6·temporal + 0.4·panic)` gives 62: the code truncates instead of
rounding. -/
theorem C1_counterexample :
    pickMin (candidatesOf 100 [artA]) = some (artA, 10) ∧
    (correlate_events 100 49 [artA]).correlation_confidence = 61 ∧
    specConfidence 10 49 = 62 := by
  refine ⟨?_, ?_, ?_⟩
  · norm_num [pickMin, candidatesOf, artA, List.filterMap]
  · have hp : pickMin (candidatesOf 100 [artA]) = some (artA, 10) := by
      norm_num [pickMin, candidatesOf, artA, List.filterMap]
    rw [correlate_events_pick hp]
    norm_num [confidenceOf, temporalScore, pyInt]
  · norm_num [specConfidence, temporalScore, pyRound]

/-- C1 (amended).  For every correlation with a selected smoking-gun
candidate at latency `L` and caller-supplied nonnegative panic score `P`,
the returned confidence is `⌊0.6·temporal + 0.4·P⌋` (Python `int`
truncation, which equals the floor on these nonnegative values), where
`temporal = max(0, 100 − 3·L)` — truncation, not rounding. -/
theorem C1_confidence_is_floor (crash P : ℚ) (news : List Article)
    (a : Article) (L : ℚ)
    (h : pickMin (candidatesOf crash news) = some (a, L)) (hP : 0 ≤ P) :
    (correlate_events crash P news).correlation_confidence =
      ⌊(6/10) * temporalScore L + (4/10) * P⌋ := by
  rw [correlate_events_pick h]
  have harg : (0 : ℚ) ≤ temporalScore L * (6/10) + P * (4/10) := by
    have := temporalScore_nonneg L
    nlinarith
  show confidenceOf L P = _
  rw [confidenceOf, pyInt_of_nonneg harg]
  congr 1
  ring

/-- C1 witness: the amended statement at crash time 100, article `artA`
(latency 10), panic score 49. -/
theorem C1_witness :
    (correlate_events 100 49 [artA]).correlation_confidence =
      ⌊(6/10) * temporalScore 10 + (4/10) * (49 : ℚ)⌋ :=
  C1_confidence_is_floor 100 49 [artA] artA 10
    (by norm_num [pickMin, candidatesOf, artA, List.filterMap]) (by norm_num)

/-- C3 (confirmed).  The selected smoking-gun article was published
strictly before the crash and at most 30 minutes before it
(`0 < latency ≤ 30`), and among all in-window candidates it has the
smallest latency. -/
theorem C3_smoking_gun_window (crash panic : ℚ) (news : List Article)
    (a : Article) (L : ℚ)
    (h : pickMin (candidatesOf crash news) = some (a, L)) :
    (correlate_events crash panic news).smoking_gun = some a ∧
    a.published = some (crash - L) ∧ 0 < L ∧ L ≤ 30 ∧
    ∀ c ∈ candidatesOf crash news, L ≤ c.2 := by
  have hmem := pickMin_mem h
  have hc := mem_candidatesOf hmem
  refine ⟨?_, hc.2.1, hc.2.2.1, hc.2.2.2, ?_⟩
  · rw [correlate_events_pick h]
  · intro c hcm
    exact pickMin_le h c hcm

/-- C3 witness: crash at 100 with articles at 80 and 90; the 10-minute-latency
article `artA` is selected, within the window, and minimal. -/
theorem C3_witness :
    (correlate_events 100 49 [artB, artA]).smoking_gun = some artA ∧
    artA.published = some (100 - 10) ∧ (0 : ℚ) < 10 ∧ (10 : ℚ) ≤ 30 ∧
    ∀ c ∈ candidatesOf 100 [artB, artA], (10 : ℚ) ≤ c.2 :=
  C3_smoking_gun_window 100 49 [artB, artA] artA 10
    (by norm_num [pickMin, candidatesOf, artA, artB, List.filterMap])

/-- C9 (confirmed).  Holding panic fixed, confidence does not increase with
latency on the candidate window; holding latency fixed, confidence does not
decrease with panic score. -/
theorem C9_confidence_monotone (L1 L2 P L P1 P2 : ℚ) (h1 : 0 < L1)
    (h12 : L1 ≤ L2) (h2 : L2 ≤ 30) (hP : P1 ≤ P2) :
    confidenceOf L2 P ≤ confidenceOf L1 P ∧
    confidenceOf L P1 ≤ confidenceOf L P2 := by
  constructor
  · apply pyInt_mono
    have := temporalScore_antitone h12
    nlinarith
  · apply pyInt_mono
    nlinarith

/-- C9 witness: latencies 5 ≤ 10 at panic 50, and panic 10 ≤ 20 at
latency 7. -/
theorem C9_witness :
    confidenceOf 10 50 ≤ confidenceOf 5 50 ∧
    confidenceOf 7 10 ≤ confidenceOf 7 20 :=
  C9_confidence_monotone 5 10 50 7 10 20 (by norm_num) (by norm_num)
    (by norm_num) (by norm_num)

/-! ## C2, C4: the pipeline gates -/

/-- C2 (counterexample).  A scan whose correlation lands at confidence
exactly 80 (latency 10, panic 95) gets verdict `MEDIUM_CONFIDENCE` — not
`HIGH_CONFIDENCE` — yet the pipeline's `confidence < 80` gate lets it
proceed all the way to response generation and archival instead of
terminating in the LOW_CONFIDENCE result. -/
theorem C2_counterexample :
    (correlate_events 100 95 [artA]).verdict = "MEDIUM_CONFIDENCE" ∧
    (correlate_events 100 95 [artA]).correlation_confidence = 80 ∧
    (process_ticker false scoutSigma (trendingConst huntA95) respondFixed
      "TATAMOTORS.NS").statusStr = "attack_verified" := by
  have hp : pickMin (candidatesOf 100 [artA]) = some (artA, 10) := by
    norm_num [pickMin, candidatesOf, artA, List.filterMap]
  have hconf : confidenceOf 10 95 = 80 := by
    norm_num [confidenceOf, temporalScore, pyInt]
  have hc := @correlate_events_pick 100 95 [artA] artA 10 hp
  refine ⟨?_, ?_, ?_⟩
  · rw [hc]
    simp [hconf]
  · rw [hc]
    exact hconf
  · simp only [process_ticker, scoutSigma, scoutSigmaData, trendingConst, huntA95,
      respondFixed, HuntResult.status, HuntResult.panic_score, HuntResult.articles,
      Option.getD]
    norm_num [hc, hconf, ScanResult.statusStr]

/-- C2 (amended).  For a scan that reaches the correlating stage and finds a
smoking gun: the verdict is `HIGH_CONFIDENCE` exactly when confidence > 80,
and the scan terminates in the LOW_CONFIDENCE result exactly when
confidence < 80 — at confidence exactly 80 the verdict is
`MEDIUM_CONFIDENCE` and yet the scan proceeds. -/
theorem C2_gate_iff (d : ScoutData) (trending : HuntTask → HuntResult)
    (respond : ThreatData → ResponseDrafts) (ticker : String)
    (hv : d.stats.volatility_status = "SIGMA_EVENT")
    (hh : (trending ⟨ticker, some d.timestamp, 30, "CRITICAL"⟩).status = "completed")
    (hg : (correlate_events d.timestamp
        ((trending ⟨ticker, some d.timestamp, 30, "CRITICAL"⟩).panic_score.getD 0)
        (trending ⟨ticker, some d.timestamp, 30, "CRITICAL"⟩).articles
          ).smoking_gun_found = true) :
    ((correlate_events d.timestamp
        ((trending ⟨ticker, some d.timestamp, 30, "CRITICAL"⟩).panic_score.getD 0)
        (trending ⟨ticker, some d.timestamp, 30, "CRITICAL"⟩).articles).verdict
      = "HIGH_CONFIDENCE" ↔
      80 < (correlate_events d.timestamp
        ((trending ⟨ticker, some d.timestamp, 30, "CRITICAL"⟩).panic_score.getD 0)
        (trending ⟨ticker, some d.timestamp, 30, "CRITICAL"⟩).articles
          ).correlation_confidence) ∧
    ((process_ticker false (.ok d) trending respond ticker).statusStr
      = "low_confidence" ↔
      (correlate_events d.timestamp
        ((trending ⟨ticker, some d.timestamp, 30, "CRITICAL"⟩).panic_score.getD 0)
        (trending ⟨ticker, some d.timestamp, 30, "CRITICAL"⟩).articles
          ).correlation_confidence < 80) ∧
    ((correlate_events d.timestamp
        ((trending ⟨ticker, some d.timestamp, 30, "CRITICAL"⟩).panic_score.getD 0)
        (trending ⟨ticker, some d.timestamp, 30, "CRITICAL"⟩).articles
          ).correlation_confidence < 80 →
      process_ticker false (.ok d) trending respond ticker =
        .low_confidence (correlate_events d.timestamp
          ((trending ⟨ticker, some d.timestamp, 30, "CRITICAL"⟩).panic_score.getD 0)
          (trending ⟨ticker, some d.timestamp, 30, "CRITICAL"⟩).articles)) := by
  set task : HuntTask := ⟨ticker, some d.timestamp, 30, "CRITICAL"⟩ with htask
  set h := trending task with hdefh
  set corr := correlate_events d.timestamp (h.panic_score.getD 0) h.articles
    with hdefc
  obtain ⟨a, L, hpick⟩ := correlate_found_pick hg
  have hc := @correlate_events_pick d.timestamp (h.panic_score.getD 0) h.articles a L hpick
  rw [← hdefc] at hc
  have hverdict : corr.verdict =
      if confidenceOf L (h.panic_score.getD 0) > 80
        then "HIGH_CONFIDENCE" else "MEDIUM_CONFIDENCE" := by
    rw [hc]
  have hconf : corr.correlation_confidence = confidenceOf L (h.panic_score.getD 0) := by
    rw [hc]
  have hproc : process_ticker false (.ok d) trending respond ticker =
      (if corr.smoking_gun_found = false then .organic_crash corr
       else if corr.correlation_confidence < 80 then .low_confidence corr
       else .attack_verified ⟨ticker, d.timestamp, d.current_price, d.stats.z_score,
          d.prediction.projected_loss, corr.smoking_gun.map (fun a => a.title),
          corr.smoking_gun.map (fun a => a.link), corr.article_time,
          corr.latency_minutes, h.panic_score, corr.correlation_confidence,
          "MISINFORMATION_CAUSED_CRASH",
          respond ⟨ticker, corr.smoking_gun.map (fun a => a.title),
            d.prediction.projected_loss, h.panic_score⟩⟩) := by
    simp only [process_ticker, Bool.false_eq_true, if_false, hv, ← htask, ← hdefh,
      hh, ← hdefc]
    simp
  refine ⟨?_, ?_, ?_⟩
  · rw [hverdict, hconf]
    by_cases hlt : 80 < confidenceOf L (h.panic_score.getD 0)
    · simp [hlt]
    · simp [hlt]
  · rw [hproc, hg]
    by_cases hlt : corr.correlation_confidence < 80
    · simp [hlt, ScanResult.statusStr]
    · simp [hlt, ScanResult.statusStr]
  · intro hlt
    rw [hproc, hg]
    simp [hlt]

/-- C2 witness: the amended statement for the concrete scan with panic
score 49 and latency 10 (confidence 61 < 80, LOW_CONFIDENCE terminal). -/
theorem C2_witness :
    ((correlate_events scoutSigmaData.timestamp
        (((trendingConst huntA49) ⟨"TATAMOTORS.NS", some scoutSigmaData.timestamp, 30,
          "CRITICAL"⟩).panic_score.getD 0)
        ((trendingConst huntA49) ⟨"TATAMOTORS.NS", some scoutSigmaData.timestamp, 30,
          "CRITICAL"⟩).articles).verdict = "HIGH_CONFIDENCE" ↔
      80 < (correlate_events scoutSigmaData.timestamp
        (((trendingConst huntA49) ⟨"TATAMOTORS.NS", some scoutSigmaData.timestamp, 30,
          "CRITICAL"⟩).panic_score.getD 0)
        ((trendingConst huntA49) ⟨"TATAMOTORS.NS", some scoutSigmaData.timestamp, 30,
          "CRITICAL"⟩).articles).correlation_confidence) ∧
    ((process_ticker false (.ok scoutSigmaData) (trendingConst huntA49) respondFixed
        "TATAMOTORS.NS").statusStr = "low_confidence" ↔
      (correlate_events scoutSigmaData.timestamp
        (((trendingConst huntA49) ⟨"TATAMOTORS.NS", some scoutSigmaData.timestamp, 30,
          "CRITICAL"⟩).panic_score.getD 0)
        ((trendingConst huntA49) ⟨"TATAMOTORS.NS", some scoutSigmaData.timestamp, 30,
          "CRITICAL"⟩).articles).correlation_confidence < 80) ∧
    ((correlate_events scoutSigmaData.timestamp
        (((trendingConst huntA49) ⟨"TATAMOTORS.NS", some scoutSigmaData.timestamp, 30,
          "CRITICAL"⟩).panic_score.getD 0)
        ((trendingConst huntA49) ⟨"TATAMOTORS.NS", some scoutSigmaData.timestamp, 30,
          "CRITICAL"⟩).articles).correlation_confidence < 80 →
      process_ticker false (.ok scoutSigmaData) (trendingConst huntA49) respondFixed
          "TATAMOTORS.NS" =
        .low_confidence (correlate_events scoutSigmaData.timestamp
          (((trendingConst huntA49) ⟨"TATAMOTORS.NS", some scoutSigmaData.timestamp, 30,
            "CRITICAL"⟩).panic_score.getD 0)
          ((trendingConst huntA49) ⟨"TATAMOTORS.NS", some scoutSigmaData.timestamp, 30,
            "CRITICAL"⟩).articles)) :=
  C2_gate_iff scoutSigmaData (trendingConst huntA49) respondFixed "TATAMOTORS.NS"
    rfl rfl
    (by
      have hp : pickMin (candidatesOf 100 [artA]) = some (artA, 10) := by
        norm_num [pickMin, candidatesOf, artA, List.filterMap]
      simp only [trendingConst, huntA49, HuntResult.panic_score, HuntResult.articles,
        Option.getD, scoutSigmaData]
      rw [@correlate_events_pick 100 (49 : ℚ) [artA] artA 10 hp])

/-- C4 (counterexample).  With the `FORCE_CRASH_TEST` marker file present,
a scan whose anomaly detector completes and reports STABLE does not return
the Normal result: the dev override forces the pipeline into hunting. -/
theorem C4_counterexample :
    scoutStable.status = "completed" ∧
    scoutStable.volatility = some "STABLE" ∧
    process_ticker true scoutStable (trendingConst huntFailedR) respondFixed "T.NS"
      = .trending_failed huntFailedR ∧
    ScanResult.statusStr (.trending_failed huntFailedR) ≠ "normal" := by
  refine ⟨rfl, rfl, ?_, by simp [ScanResult.statusStr]⟩
  simp [process_ticker, scoutStable, scoutStableData, trendingConst, huntFailedR,
    HuntResult.status]

/-- C4 (amended).  In the absence of the `FORCE_CRASH_TEST` dev-override
marker, every scan whose anomaly detector completes with a volatility
status other than SIGMA_EVENT returns the Normal ("No action needed")
terminal result — no hunting, correlating, response generation or archival
happens. -/
theorem C4_normal_when_not_sigma (d : ScoutData)
    (trending : HuntTask → HuntResult) (respond : ThreatData → ResponseDrafts)
    (ticker : String) (hv : d.stats.volatility_status ≠ "SIGMA_EVENT") :
    process_ticker false (.ok d) trending respond ticker =
      .normal d.stats.volatility_status "No action needed" := by
  simp [process_ticker, hv]

/-- C4 witness: the STABLE scan returns Normal when the override is off. -/
theorem C4_witness :
    process_ticker false (.ok scoutStableData) (trendingConst huntFailedR)
        respondFixed "T.NS" =
      .normal scoutStableData.stats.volatility_status "No action needed" :=
  C4_normal_when_not_sigma scoutStableData (trendingConst huntFailedR) respondFixed
    "T.NS" (by simp [scoutStableData])

/-! ## C10: the DEMO.NS branch -/

/-- Unfolding of `process_ticker` past the SCANNING gate (no override,
completed Scout result reporting SIGMA_EVENT). -/
theorem process_ticker_ok_sigma (d : ScoutData)
    (trending : HuntTask → HuntResult) (respond : ThreatData → ResponseDrafts)
    (ticker : String) (hv : d.stats.volatility_status = "SIGMA_EVENT") :
    process_ticker false (.ok d) trending respond ticker =
      (if (trending ⟨ticker, some d.timestamp, 30, "CRITICAL"⟩).status ≠ "completed"
       then .trending_failed (trending ⟨ticker, some d.timestamp, 30, "CRITICAL"⟩)
       else if (correlate_events d.timestamp
            ((trending ⟨ticker, some d.timestamp, 30, "CRITICAL"⟩).panic_score.getD 0)
            (trending ⟨ticker, some d.timestamp, 30, "CRITICAL"⟩).articles
              ).smoking_gun_found = false
       then .organic_crash (correlate_events d.timestamp
            ((trending ⟨ticker, some d.timestamp, 30, "CRITICAL"⟩).panic_score.getD 0)
            (trending ⟨ticker, some d.timestamp, 30, "CRITICAL"⟩).articles)
       else if (correlate_events d.timestamp
            ((trending ⟨ticker, some d.timestamp, 30, "CRITICAL"⟩).panic_score.getD 0)
            (trending ⟨ticker, some d.timestamp, 30, "CRITICAL"⟩).articles
              ).correlation_confidence < 80
       then .low_confidence (correlate_events d.timestamp
            ((trending ⟨ticker, some d.timestamp, 30, "CRITICAL"⟩).panic_score.getD 0)
            (trending ⟨ticker, some d.timestamp, 30, "CRITICAL"⟩).articles)
       else .attack_verified ⟨ticker, d.timestamp, d.current_price, d.stats.z_score,
          d.prediction.projected_loss,
          (correlate_events d.timestamp
            ((trending ⟨ticker, some d.timestamp, 30, "CRITICAL"⟩).panic_score.getD 0)
            (trending ⟨ticker, some d.timestamp, 30, "CRITICAL"⟩).articles
              ).smoking_gun.map (fun a => a.title),
          (correlate_events d.timestamp
            ((trending ⟨ticker, some d.timestamp, 30, "CRITICAL"⟩).panic_score.getD 0)
            (trending ⟨ticker, some d.timestamp, 30, "CRITICAL"⟩).articles
              ).smoking_gun.map (fun a => a.link),
          (correlate_events d.timestamp
            ((trending ⟨ticker, some d.timestamp, 30, "CRITICAL"⟩).panic_score.getD 0)
            (trending ⟨ticker, some d.timestamp, 30, "CRITICAL"⟩).articles
              ).article_time,
          (correlate_events d.timestamp
            ((trending ⟨ticker, some d.timestamp, 30, "CRITICAL"⟩).panic_score.getD 0)
            (trending ⟨ticker, some d.timestamp, 30, "CRITICAL"⟩).articles
              ).latency_minutes,
          (trending ⟨ticker, some d.timestamp, 30, "CRITICAL"⟩).panic_score,
          (correlate_events d.timestamp
            ((trending ⟨ticker, some d.timestamp, 30, "CRITICAL"⟩).panic_score.getD 0)
            (trending ⟨ticker, some d.timestamp, 30, "CRITICAL"⟩).articles
              ).correlation_confidence,
          "MISINFORMATION_CAUSED_CRASH",
          respond ⟨ticker,
            (correlate_events d.timestamp
              ((trending ⟨ticker, some d.timestamp, 30, "CRITICAL"⟩).panic_score.getD 0)
              (trending ⟨ticker, some d.timestamp, 30, "CRITICAL"⟩).articles
                ).smoking_gun.map (fun a => a.title),
            d.prediction.projected_loss,
            (trending ⟨ticker, some d.timestamp, 30, "CRITICAL"⟩).panic_score⟩⟩) := by
  simp only [process_ticker, hv]
  norm_num

/-- A completed SIGMA_EVENT scout result never yields `normal` or
`scout_failed` from `process_ticker`: the scan passes the SCANNING gate. -/
theorem process_ticker_sigma_passes_gate (d : ScoutData)
    (trending : HuntTask → HuntResult) (respond : ThreatData → ResponseDrafts)
    (ticker : String) (hv : d.stats.volatility_status = "SIGMA_EVENT") :
    (process_ticker false (.ok d) trending respond ticker).statusStr ≠ "normal" ∧
    (process_ticker false (.ok d) trending respond ticker).statusStr ≠ "scout_failed" := by
  rw [process_ticker_ok_sigma d trending respond ticker hv]
  constructor
  · split
    · simp [ScanResult.statusStr]
    · split
      · simp [ScanResult.statusStr]
      · split <;> simp [ScanResult.statusStr]
  · split
    · simp [ScanResult.statusStr]
    · split
      · simp [ScanResult.statusStr]
      · split <;> simp [ScanResult.statusStr]

/-- C10 (confirmed).  For ticker `DEMO.NS`, `ScoutAgent.process_task`
returns the fixed fabricated SIGMA_EVENT result (z-score −2.8, price
1250.00, DOWNWARD trend, `demo_mode` set) regardless of the price-series
source, so the scan always passes the SCANNING gate. -/
theorem C10_demo_ticker (fetch : String → Option (List ℚ)) (stdFn : List ℚ → ℚ)
    (now : ℚ) (trending : HuntTask → HuntResult)
    (respond : ThreatData → ResponseDrafts) :
    scout_process_task fetch stdFn now "DEMO.NS" = demoScoutResult now ∧
    demoScoutResult now =
      .ok ⟨"DEMO.NS", 1250, now, ⟨-(14/5), "SIGMA_EVENT", 1300, 1786/100⟩,
        ⟨1200, -4, "DOWNWARD"⟩, 100, true⟩ ∧
    (scout_process_task fetch stdFn now "DEMO.NS").status = "completed" ∧
    (process_ticker false (scout_process_task fetch stdFn now "DEMO.NS") trending
        respond "DEMO.NS").statusStr ≠ "normal" ∧
    (process_ticker false (scout_process_task fetch stdFn now "DEMO.NS") trending
        respond "DEMO.NS").statusStr ≠ "scout_failed" := by
  have hps : scout_process_task fetch stdFn now "DEMO.NS" = demoScoutResult now := by
    simp [scout_process_task]
  have hgate := process_ticker_sigma_passes_gate
    ⟨"DEMO.NS", 1250, now, ⟨-(14/5), "SIGMA_EVENT", 1300, 1786/100⟩,
      ⟨1200, -4, "DOWNWARD"⟩, 100, true⟩ trending respond "DEMO.NS" rfl
  refine ⟨hps, rfl, ?_, ?_, ?_⟩
  · rw [hps]
    rfl
  · rw [hps]
    exact hgate.1
  · rw [hps]
    exact hgate.2

/-! ## C8: zero-variance volatility -/

/-- Sum of a list all of whose entries equal `c`. -/
theorem sum_of_all_eq {l : List ℚ} {c : ℚ} (h : ∀ p ∈ l, p = c) :
    l.sum = c * l.length := by
  induction l with
  | nil => simp
  | cons a t ih =>
    have ha := h a (List.mem_cons_self a t)
    have ht := ih fun p hp => h p (List.mem_cons_of_mem a hp)
    simp only [List.sum_cons, List.length_cons, ht, ha]
    push_cast
    ring

/-- The mean of a constant nonempty list is that constant. -/
theorem listMean_of_all_eq {l : List ℚ} {c : ℚ} (hne : l ≠ [])
    (h : ∀ p ∈ l, p = c) : listMean l = c := by
  have hn : (l.length : ℚ) ≠ 0 := by
    have h1 : 0 < l.length := List.length_pos.2 hne
    have h2 : l.length ≠ 0 := Nat.pos_iff_ne_zero.1 h1
    exact_mod_cast h2
  rw [listMean, sum_of_all_eq h]
  field_simp

/-- A constant list has zero population variance. -/
theorem popVariance_of_all_eq {l : List ℚ} {c : ℚ} (hne : l ≠ [])
    (h : ∀ p ∈ l, p = c) : popVariance l = 0 := by
  rw [popVariance]
  have hz : ∀ x ∈ l.map fun p => (p - listMean l) ^ 2, x = 0 := by
    intro x hx
    obtain ⟨p, hp, rfl⟩ := List.mem_map.1 hx
    rw [h p hp, listMean_of_all_eq hne h]
    ring
  rw [List.sum_eq_zero hz]
  simp

/-- C8 (confirmed).  On a nonempty price series whose prices all coincide,
the standard deviation is 0, the guard skips the division, and
`analyze_volatility` reports z-score 0 and status STABLE. -/
theorem C8_zero_variance_stable (prices : List ℚ) (std c : ℚ)
    (hne : prices ≠ []) (hall : ∀ p ∈ prices, p = c)
    (hstd0 : 0 ≤ std) (hstd : std ^ 2 = popVariance prices) :
    std = 0 ∧ (analyze_volatility std prices).z_score = 0 ∧
    (analyze_volatility std prices).volatility_status = "STABLE" := by
  have hvar : popVariance prices = 0 := popVariance_of_all_eq hne hall
  have hstdz : std = 0 := by
    have h2 : std ^ 2 = 0 := hstd.trans hvar
    exact pow_eq_zero_iff two_ne_zero |>.mp h2
  subst hstdz
  refine ⟨rfl, ?_, ?_⟩
  · rcases hq : prices.getLast? with _ | lst
    · exact absurd (by simpa using hq) hne
    · simp only [analyze_volatility, hq]
      norm_num [round2, pyRound]
  · rcases hq : prices.getLast? with _ | lst
    · exact absurd (by simpa using hq) hne
    · simp only [analyze_volatility, hq]
      norm_num

/-- C8 witness: the constant series `[5, 5, 5]` with standard deviation 0. -/
theorem C8_witness :
    (0 : ℚ) = 0 ∧ (analyze_volatility 0 pricesFlat).z_score = 0 ∧
    (analyze_volatility 0 pricesFlat).volatility_status = "STABLE" :=
  C8_zero_variance_stable pricesFlat 0 5 (by simp [pricesFlat])
    (by intro p hp; simp [pricesFlat] at hp; simp [hp]) le_rfl
    (by norm_num [popVariance, pricesFlat, listMean])

/-! ## C6, C7: the reactive hunt -/

/-- Every article surviving `filter_by_time` with a crash time lies in the
closed interval `[crash − window, crash]`. -/
theorem filter_by_time_some_mem {ct w : ℚ} {l : List Article} {a : Article}
    (ha : a ∈ filter_by_time (some ct) w l) :
    ∃ t, a.published = some t ∧ ct - w ≤ t ∧ t ≤ ct := by
  simp only [filter_by_time] at ha
  obtain ⟨hmem, hpred⟩ := List.mem_filter.1 ha
  rcases hpub : a.published with _ | t
  · rw [hpub] at hpred
    simp at hpred
  · rw [hpub] at hpred
    have := of_decide_eq_true hpred
    exact ⟨t, rfl, this.1, this.2⟩

/-- C6 (counterexample).  An article published exactly at
`crash_time − window` (minute 70, crash 100, window 30) survives the hunt
filter and is returned among the hunt's articles, although the claimed
half-open interval `(crash − window, crash]` excludes it: the code's
interval is closed on the left. -/
theorem C6_counterexample :
    huntFiltered nsConst taskT = [artBoundary] ∧
    (huntMode nsConst scorerOk taskT).articles = [artBoundary] ∧
    artBoundary.published = some 70 ∧ ¬((100 : ℚ) - 30 < 70) := by
  have hf : huntFiltered nsConst taskT = [artBoundary] := by
    simp only [huntFiltered, nsConst, taskT, panicKeywords, List.map_cons,
      List.map_nil, List.flatten, dedupByTitle, List.foldl, List.any_nil,
      List.any_cons, artBoundary]
    norm_num [filter_by_time, artBoundary]
  refine ⟨hf, ?_, rfl, by norm_num⟩
  simp only [huntMode, hf]
  norm_num [HuntResult.articles]

/-- C6 (amended).  The hunter merges the per-keyword results,
de-duplicates by exact title, and keeps only articles whose publish time
lies in the closed interval `[crash_time − window, crash_time]` (the lower
boundary is included, unlike the claimed half-open interval); in
particular an article published after the crash is never scored or
returned as a candidate. -/
theorem C6_hunt_window (ns : String → ℚ → List Article)
    (scorer : List String → Except String PanicLLM) (ticker : String)
    (ct w : ℚ) (urg : String) :
    (∀ a ∈ huntFiltered ns ⟨ticker, some ct, w, urg⟩,
      ∃ t, a.published = some t ∧ ct - w ≤ t ∧ t ≤ ct) ∧
    (∀ a ∈ (huntMode ns scorer ⟨ticker, some ct, w, urg⟩).articles,
      ∃ t, a.published = some t ∧ ct - w ≤ t ∧ t ≤ ct) := by
  constructor
  · intro a ha
    exact filter_by_time_some_mem (ha : a ∈ filter_by_time (some ct) w _)
  · intro a ha
    by_cases hf : huntFiltered ns ⟨ticker, some ct, w, urg⟩ = []
    · rw [huntMode, hf] at ha
      simp [HuntResult.articles] at ha
    · rw [huntMode] at ha
      simp only [if_neg hf, HuntResult.articles] at ha
      have hmem : a ∈ huntFiltered ns ⟨ticker, some ct, w, urg⟩ :=
        List.take_subset 5 _ ha
      exact filter_by_time_some_mem (hmem : a ∈ filter_by_time (some ct) w _)

/-- C6 witness: the amended window bound at the concrete boundary hunt. -/
theorem C6_witness :
    ∃ t, artBoundary.published = some t ∧ (100 : ℚ) - 30 ≤ t ∧ t ≤ 100 :=
  (C6_hunt_window nsConst scorerOk "T.NS" 100 30 "CRITICAL").1 artBoundary
    (by
      have hf : huntFiltered nsConst taskT = [artBoundary] := by
        simp only [huntFiltered, nsConst, taskT, panicKeywords, List.map_cons,
          List.map_nil, List.flatten, dedupByTitle, List.foldl, List.any_nil,
          List.any_cons, artBoundary]
        norm_num [filter_by_time, artBoundary]
      rw [show (⟨"T.NS", some 100, 30, "CRITICAL"⟩ : HuntTask) = taskT from rfl, hf]
      exact List.mem_singleton.2 rfl)

/-- C7 (confirmed).  When the panic scorer fails (raises or returns
unparsable output), the hunter still returns a structurally valid,
completed HuntResult with panic score 0 and `smoking_gun_found = false`;
`analyze_panic` reports the failure diagnostically in its `analysis`
field, and no exception escapes. -/
theorem C7_scorer_failure_nonfatal (ns : String → ℚ → List Article)
    (ticker : String) (ct : Option ℚ) (w : ℚ) (urg : String) (e : String)
    (hne : huntFiltered ns ⟨ticker, ct, w, urg⟩ ≠ []) :
    (huntMode ns (fun _ => .error e) ⟨ticker, ct, w, urg⟩).status = "completed" ∧
    (huntMode ns (fun _ => .error e) ⟨ticker, ct, w, urg⟩).panic_score = some 0 ∧
    (huntMode ns (fun _ => .error e) ⟨ticker, ct, w, urg⟩).smoking_gun_found = false ∧
    (analyze_panic (fun _ => .error e)
        ((huntFiltered ns ⟨ticker, ct, w, urg⟩).map fun a => a.title)).analysis =
      some ("Analysis failed: " ++ e) ∧
    huntMode ns (fun _ => .error e) ⟨ticker, ct, w, urg⟩ =
      .analyzed ⟨ticker, ct, false, (huntFiltered ns ⟨ticker, ct, w, urg⟩).length,
        0, none, none, (huntFiltered ns ⟨ticker, ct, w, urg⟩).take 5,
        "ORGANIC_VOLATILITY"⟩ := by
  have hhl : (huntFiltered ns ⟨ticker, ct, w, urg⟩).map (fun a => a.title) ≠ [] := by
    simpa using hne
  have hpa : analyze_panic (fun _ => .error e)
      ((huntFiltered ns ⟨ticker, ct, w, urg⟩).map fun a => a.title) =
      ⟨0, none, none, some ("Analysis failed: " ++ e)⟩ := by
    rw [analyze_panic, if_neg hhl]
  have hmode : huntMode ns (fun _ => .error e) ⟨ticker, ct, w, urg⟩ =
      .analyzed ⟨ticker, ct, false, (huntFiltered ns ⟨ticker, ct, w, urg⟩).length,
        0, none, none, (huntFiltered ns ⟨ticker, ct, w, urg⟩).take 5,
        "ORGANIC_VOLATILITY"⟩ := by
    rw [huntMode]
    simp only [if_neg hne, hpa]
    norm_num
  refine ⟨?_, ?_, ?_, by rw [hpa], hmode⟩ <;> rw [hmode] <;> rfl

/-- C7 witness: the boundary hunt with an always-failing scorer. -/
theorem C7_witness :
    (huntMode nsConst (fun _ => .error "LLM unavailable")
      ⟨"T.NS", some 100, 30, "CRITICAL"⟩).status = "completed" ∧
    (huntMode nsConst (fun _ => .error "LLM unavailable")
      ⟨"T.NS", some 100, 30, "CRITICAL"⟩).panic_score = some 0 ∧
    (huntMode nsConst (fun _ => .error "LLM unavailable")
      ⟨"T.NS", some 100, 30, "CRITICAL"⟩).smoking_gun_found = false ∧
    (analyze_panic (fun _ => .error "LLM unavailable")
        ((huntFiltered nsConst ⟨"T.NS", some 100, 30, "CRITICAL"⟩).map
          fun a => a.title)).analysis =
      some ("Analysis failed: " ++ "LLM unavailable") ∧
    huntMode nsConst (fun _ => .error "LLM unavailable")
        ⟨"T.NS", some 100, 30, "CRITICAL"⟩ =
      .analyzed ⟨"T.NS", some 100, false,
        (huntFiltered nsConst ⟨"T.NS", some 100, 30, "CRITICAL"⟩).length, 0,
        none, none,
        (huntFiltered nsConst ⟨"T.NS", some 100, 30, "CRITICAL"⟩).take 5,
        "ORGANIC_VOLATILITY"⟩ :=
  C7_scorer_failure_nonfatal nsConst "T.NS" (some 100) 30 "CRITICAL"
    "LLM unavailable"
    (by
      have hf : huntFiltered nsConst taskT = [artBoundary] := by
        simp only [huntFiltered, nsConst, taskT, panicKeywords, List.map_cons,
          List.map_nil, List.flatten, dedupByTitle, List.foldl, List.any_nil,
          List.any_cons, artBoundary]
        norm_num [filter_by_time, artBoundary]
      rw [show (⟨"T.NS", some 100, 30, "CRITICAL"⟩ : HuntTask) = taskT from rfl, hf]
      simp)

/-! ## C5: the prediction engine -/

/-- A sum of squares over a point list is nonnegative. -/
theorem sum_sq_nonneg (pts : List (ℚ × ℚ)) (f : ℚ × ℚ → ℚ) :
    0 ≤ (pts.map fun p => f p ^ 2).sum := by
  induction pts with
  | nil => simp
  | cons p l ih =>
    simp only [List.map_cons, List.sum_cons]
    exact add_nonneg (sq_nonneg _) ih

/-- Sum of the plain residuals of a line over the points. -/
theorem sum_resid0 (pts : List (ℚ × ℚ)) (m b : ℚ) :
    (pts.map fun p => p.2 - (m * p.1 + b)).sum
      = sumY pts - m * sumX pts - b * pts.length := by
  induction pts with
  | nil => simp [sumY, sumX]
  | cons p l ih =>
    simp only [List.map_cons, List.sum_cons, sumY, sumX, List.length_cons] at ih ⊢
    push_cast
    linarith [ih]

/-- Sum of the x-weighted residuals of a line over the points. -/
theorem sum_resid1 (pts : List (ℚ × ℚ)) (m b : ℚ) :
    (pts.map fun p => p.1 * (p.2 - (m * p.1 + b))).sum
      = sumXY pts - m * sumXX pts - b * sumX pts := by
  induction pts with
  | nil => simp [sumXY, sumXX, sumX]
  | cons p l ih =>
    simp only [List.map_cons, List.sum_cons, sumXY, sumXX, sumX] at ih ⊢
    linear_combination ih

/-- Decomposition of the sum of squared errors of any line around a
reference line. -/
theorem sse_decomp (pts : List (ℚ × ℚ)) (m b m0 b0 : ℚ) :
    sse pts m b = sse pts m0 b0
      + (pts.map fun p => ((m0 - m) * p.1 + (b0 - b)) ^ 2).sum
      + 2 * (m0 - m) * (pts.map fun p => p.1 * (p.2 - (m0 * p.1 + b0))).sum
      + 2 * (b0 - b) * (pts.map fun p => p.2 - (m0 * p.1 + b0)).sum := by
  induction pts with
  | nil => simp [sse]
  | cons p l ih =>
    simp only [sse, List.map_cons, List.sum_cons] at ih ⊢
    linear_combination ih

/-- First normal equation: the OLS residuals sum to zero. -/
theorem ols_normal0 (pts : List (ℚ × ℚ)) (hn : (pts.length : ℚ) ≠ 0) :
    (pts.map fun p => p.2 - (olsSlope pts * p.1 + olsIntercept pts)).sum = 0 := by
  rw [sum_resid0, olsIntercept]
  field_simp

/-- Second normal equation: the x-weighted OLS residuals sum to zero. -/
theorem ols_normal1 (pts : List (ℚ × ℚ)) (hn : (pts.length : ℚ) ≠ 0)
    (hd : olsDenom pts ≠ 0) :
    (pts.map fun p => p.1 * (p.2 - (olsSlope pts * p.1 + olsIntercept pts))).sum
      = 0 := by
  rw [sum_resid1]
  simp only [olsSlope, olsIntercept, olsDenom] at hd ⊢
  field_simp
  ring

/-- The closed-form slope/intercept pair used by the code minimizes the sum
of squared errors: it is the ordinary least-squares fit. -/
theorem ols_minimizes (pts : List (ℚ × ℚ)) (hn : (pts.length : ℚ) ≠ 0)
    (hd : olsDenom pts ≠ 0) (m b : ℚ) :
    sse pts (olsSlope pts) (olsIntercept pts) ≤ sse pts m b := by
  have hdec := sse_decomp pts m b (olsSlope pts) (olsIntercept pts)
  rw [ols_normal0 pts hn, ols_normal1 pts hn hd] at hdec
  simp only [mul_zero, add_zero] at hdec
  have hQ := sum_sq_nonneg pts fun p => (olsSlope pts - m) * p.1 + (olsIntercept pts - b)
  linarith [hdec, hQ]

/-- The function `idxPoints` preserves length. -/
theorem idxPoints_length (k : ℚ) (ys : List ℚ) :
    (idxPoints k ys).length = ys.length := by
  induction ys generalizing k with
  | nil => rfl
  | cons y t ih => simp [idxPoints, ih]

/-- Closed form of the index sum. -/
theorem sumX_idx (ys : List ℚ) : ∀ k : ℚ, sumX (idxPoints k ys)
    = (ys.length : ℚ) * k + (ys.length : ℚ) * ((ys.length : ℚ) - 1) / 2 := by
  induction ys with
  | nil => intro k; simp [sumX, idxPoints]
  | cons y t ih =>
    intro k
    simp only [idxPoints, sumX, List.map_cons, List.sum_cons, List.length_cons] at ih ⊢
    rw [ih (k + 1)]
    push_cast
    ring

/-- Closed form of the squared-index sum. -/
theorem sumXX_idx (ys : List ℚ) : ∀ k : ℚ, sumXX (idxPoints k ys)
    = (ys.length : ℚ) * k ^ 2 + (ys.length : ℚ) * ((ys.length : ℚ) - 1) * k
      + (ys.length : ℚ) * ((ys.length : ℚ) - 1) * (2 * (ys.length : ℚ) - 1) / 6 := by
  induction ys with
  | nil => intro k; simp [sumXX, idxPoints]
  | cons y t ih =>
    intro k
    simp only [idxPoints, sumXX, List.map_cons, List.sum_cons, List.length_cons] at ih ⊢
    rw [ih (k + 1)]
    push_cast
    ring

/-- Closed form of the OLS denominator over indices `0..n−1`. -/
theorem olsDenom_idx (ys : List ℚ) :
    olsDenom (idxPoints 0 ys)
      = (ys.length : ℚ) ^ 2 * ((ys.length : ℚ) - 1) * ((ys.length : ℚ) + 1) / 12 := by
  rw [olsDenom, idxPoints_length, sumX_idx, sumXX_idx]
  ring

/-- With at least two points the OLS denominator is positive. -/
theorem olsDenom_idx_pos (ys : List ℚ) (h2 : 2 ≤ ys.length) :
    0 < olsDenom (idxPoints 0 ys) := by
  rw [olsDenom_idx]
  have hN : (2 : ℚ) ≤ (ys.length : ℚ) := by exact_mod_cast h2
  have h0 : (0 : ℚ) < (ys.length : ℚ) := by linarith
  have h1 : (0 : ℚ) < (ys.length : ℚ) - 1 := by linarith
  have hp : (0 : ℚ) < (ys.length : ℚ) + 1 := by linarith
  have := mul_pos (mul_pos (pow_pos h0 2) h1) hp
  exact div_pos this (by norm_num)

/-- C5 (counterexample).  On ten prices lying exactly on a slope-1 line
(latest 109, fitted line `y = x + 100`), the code reports projected price
122 — the line evaluated 13 steps after the last point (index
`n + 12 = 22`) — while the spec's "extrapolate 12 steps ahead" gives 121
(index 21); the reported `projected_loss` 11.93 likewise differs from the
11.01 the claimed projection yields. -/
theorem C5_counterexample :
    (predict_impact prices10).projected_price_1hr = 122 ∧
    specProjectedPrice prices10 = 121 ∧
    (predict_impact prices10).projected_loss = 1193/100 ∧
    round2 ((specProjectedPrice prices10 - 109) / 109 * 100) = 1101/100 := by
  have hrec : takeLast 10 prices10 = prices10 := by simp [takeLast, prices10]
  have hslope : olsSlope (idxPoints 0 prices10) = 1 := by
    norm_num [olsSlope, olsDenom, sumX, sumY, sumXX, sumXY, idxPoints, prices10]
  have hicept : olsIntercept (idxPoints 0 prices10) = 100 := by
    rw [olsIntercept, hslope, idxPoints_length]
    norm_num [sumX, sumY, idxPoints, prices10]
  have hspec : specProjectedPrice prices10 = 121 := by
    simp only [specProjectedPrice, hrec, hslope, hicept]
    norm_num [prices10]
  have hpred : predict_impact prices10 = ⟨122, 1193/100, "UPWARD", 1⟩ := by
    simp only [predict_impact, hrec, show prices10.getLast? = some 109 from rfl,
      hslope, hicept]
    norm_num [prices10, round2, round4, pyRound, PredictionOut.mk.injEq]
  refine ⟨?_, hspec, ?_, ?_⟩
  · rw [hpred]
  · rw [hpred]
  · rw [hspec]
    norm_num [round2, pyRound]

/-- C5 (amended).  `predict_impact` fits the ordinary least-squares line
(proved: its closed-form coefficients minimize the sum of squared errors)
over the trailing 10 points (or all points if fewer), but extrapolates it
to index `n + 12` — 13 steps ahead of the last point, which sits at index
`n − 1` — and reports `projected_loss` as the (2-decimal-rounded)
percentage change between that projected price and the latest price. -/
theorem C5_predict_ols (prices : List ℚ) (current : ℚ)
    (h2 : 2 ≤ (takeLast 10 prices).length)
    (hcur : (takeLast 10 prices).getLast? = some current) :
    (∀ m b, sse (idxPoints 0 (takeLast 10 prices))
        (olsSlope (idxPoints 0 (takeLast 10 prices)))
        (olsIntercept (idxPoints 0 (takeLast 10 prices)))
      ≤ sse (idxPoints 0 (takeLast 10 prices)) m b) ∧
    (predict_impact prices).projected_price_1hr =
      round2 (olsSlope (idxPoints 0 (takeLast 10 prices))
          * (((takeLast 10 prices).length : ℚ) + 12)
        + olsIntercept (idxPoints 0 (takeLast 10 prices))) ∧
    (predict_impact prices).projected_loss =
      round2 ((olsSlope (idxPoints 0 (takeLast 10 prices))
          * (((takeLast 10 prices).length : ℚ) + 12)
        + olsIntercept (idxPoints 0 (takeLast 10 prices)) - current)
          / current * 100) := by
  have hn : ((idxPoints 0 (takeLast 10 prices)).length : ℚ) ≠ 0 := by
    rw [idxPoints_length]
    have hpos : 0 < (takeLast 10 prices).length := lt_of_lt_of_le two_pos h2
    exact_mod_cast Nat.pos_iff_ne_zero.1 hpos
  have hd := (olsDenom_idx_pos _ h2).ne'
  refine ⟨fun m b => ols_minimizes _ hn hd m b, ?_, ?_⟩
  · simp only [predict_impact, hcur]
  · simp only [predict_impact, hcur]

/-- C5 witness: the amended statement on the concrete ten-point series. -/
theorem C5_witness :
    (∀ m b, sse (idxPoints 0 (takeLast 10 prices10))
        (olsSlope (idxPoints 0 (takeLast 10 prices10)))
        (olsIntercept (idxPoints 0 (takeLast 10 prices10)))
      ≤ sse (idxPoints 0 (takeLast 10 prices10)) m b) ∧
    (predict_impact prices10).projected_price_1hr =
      round2 (olsSlope (idxPoints 0 (takeLast 10 prices10))
          * (((takeLast 10 prices10).length : ℚ) + 12)
        + olsIntercept (idxPoints 0 (takeLast 10 prices10))) ∧
    (predict_impact prices10).projected_loss =
      round2 ((olsSlope (idxPoints 0 (takeLast 10 prices10))
          * (((takeLast 10 prices10).length : ℚ) + 12)
        + olsIntercept (idxPoints 0 (takeLast 10 prices10)) - 109)
          / 109 * 100) :=
  C5_predict_ols prices10 109 (by norm_num [takeLast, prices10])
    (by
      rw [show takeLast 10 prices10 = prices10 by simp [takeLast, prices10]]
      rfl)
